import Mathlib

/-!
Shallow embedding of `src/main.py` (Grocy CSV product importer).

The importer holds three name→identifier caches (Python `dict`s, modelled as
insertion-ordered association lists), talks to a remote HTTP API (modelled as
an oracle `Server` that maps the request history and the current request to a
response or an error), and processes CSV rows (modelled as association lists
from column name to string value, as produced by `csv.DictReader`).

Python exceptions are modelled by `Except PyError`; every exception class that
the program can raise in the modelled paths gets a constructor.  Console
`print` output is modelled only where the behaviour under study depends on it:
the row loop's success / failure messages become `LogEvent`s, and the bug that
the failure message reads the local variable `name` (unbound when the very
first row fails before `name` is assigned) is modelled by threading the
binding state of `name` through the row loop.
-/

set_option autoImplicit false

namespace Grocy

/-- Python exception classes raised in the modelled code paths. -/
inductive PyError where
  /-- `KeyError` from a missing dict key (CSV column or response field). -/
  | keyError (key : String)
  /-- `ValueError`, e.g. from `float()` on a non-numeric string. -/
  | valueError (msg : String)
  /-- `requests.exceptions.RequestException` (connection error / non-2xx). -/
  | requestError (msg : String)
  /-- `TypeError` from indexing a value of the wrong shape. -/
  | typeError (msg : String)
  /-- `UnboundLocalError` from reading a local variable before assignment. -/
  | unboundLocalError (var : String)
deriving Repr, DecidableEq

/-- One object returned by a `GET objects/...` listing: the two fields the
importer reads (`name` and `id`). -/
structure GrocyObject where
  name : String
  id : Int
deriving Repr, DecidableEq

/-- The HTTP requests `_make_request` can issue, with the exact JSON body
fields the source builds for each `POST`. -/
inductive Request where
  | getQuantityUnits
  | getLocations
  | getProductGroups
  | postQuantityUnit (name description name_plural : String)
  | postLocation (name description : String)
  | postProductGroup (name description : String)
  | postProduct (name description : String)
      (location_id qu_id_stock qu_id_purchase : Int) (min_stock_amount : Rat)
      (product_group_id : Int) (enable_tare_weight_handling : Int)
deriving Repr, DecidableEq

/-- A parsed JSON response body: either a list of objects (the `GET`
endpoints) or a JSON object with integer fields (the `POST` endpoints,
whose only field the importer reads is `created_object_id`). -/
inductive Response where
  | objList (objs : List GrocyObject)
  | objCreated (fields : List (String × Int))
deriving Repr, DecidableEq

/-- The remote server, modelled as an oracle: given the history of requests
issued so far and the current request, it answers or fails.  History-passing
lets a server model assign fresh identifiers per creation. -/
def Server : Type := List Request → Request → Except PyError Response

/-- Lookup in an insertion-ordered association list, as Python `d[k]` /
`k in d` on a `dict` with string keys. -/
def dlookup : List (String × Int) → String → Option Int
  | [], _ => none
  | (k, v) :: rest, key => if key = k then some v else dlookup rest key

/-- Python `d[k] = v` on a `dict`: overwrite in place if the key is present,
append otherwise. -/
def dinsert : List (String × Int) → String → Int → List (String × Int)
  | [], key, val => [(key, val)]
  | (k, v) :: rest, key, val =>
      if key = k then (k, val) :: rest else (k, v) :: dinsert rest key val

/-- The dict comprehension `{o['name']: o['id'] for o in objs}`. -/
def dictOfObjects (objs : List GrocyObject) : List (String × Int) :=
  objs.foldl (fun d o => dinsert d o.name o.id) []

/-- The three caches of `GrocyImporter`. -/
structure Caches where
  units_cache : List (String × Int)
  locations_cache : List (String × Int)
  product_groups_cache : List (String × Int)
deriving Repr, DecidableEq

/-- Console output of the row loop that the modelled behaviour depends on. -/
inductive LogEvent where
  /-- `✓ Produit créé avec l'ID: {product_id}` -/
  | rowOk (product_id : Int)
  /-- `✗ Erreur lors du traitement de {name}: {e}` (with `name` bound) -/
  | rowFailed (name : String) (err : PyError)
deriving Repr, DecidableEq

/-- Importer run state: caches, the requests issued so far, and the row-loop
log. -/
structure RunSt where
  caches : Caches
  trace : List Request
  log : List LogEvent
deriving Repr, DecidableEq

/-- `GrocyImporter.__init__`: empty caches, nothing issued yet. -/
def initial_state : RunSt := ⟨⟨[], [], []⟩, [], []⟩

/-- `_make_request`: issue one request to the server.  The request counts as
issued (is appended to the trace) whether or not it fails; a failure is
re-raised to the caller. -/
def make_request (srv : Server) (st : RunSt) (req : Request) :
    Except PyError Response × RunSt :=
  (srv st.trace req, { st with trace := st.trace ++ [req] })

/-- `result['created_object_id']`: field access on a `POST` response.  A
missing field raises `KeyError`; a response of the wrong shape (a list)
raises `TypeError` when indexed by a string. -/
def get_created_object_id : Response → Except PyError Int
  | .objCreated fields =>
      match dlookup fields "created_object_id" with
      | some i => .ok i
      | none => .error (.keyError "created_object_id")
  | .objList _ => .error (.typeError "list indices must be integers")

/-- Python `str.strip()` (whitespace at both ends removed).  Modelled over the
character list; Unicode whitespace beyond `Char.isWhitespace` is not
distinguished. -/
def pystrip (s : String) : String :=
  ⟨((s.data.dropWhile Char.isWhitespace).reverse.dropWhile
      Char.isWhitespace).reverse⟩

/-- Python `str.endswith('s')`. -/
def ends_with_s (s : String) : Bool :=
  match s.data.getLast? with
  | some c => c = 's'
  | none => false

/-- Optional sign in a float literal. -/
def parseSign : List Char → Int × List Char
  | '+' :: rest => (1, rest)
  | '-' :: rest => (-1, rest)
  | cs => (1, cs)

/-- Longest leading run of decimal digits. -/
def takeDigits : List Char → List Char × List Char
  | [] => ([], [])
  | c :: rest =>
      if c.isDigit then
        let (ds, r) := takeDigits rest
        (c :: ds, r)
      else ([], c :: rest)

/-- Value of a digit string. -/
def digitsVal (ds : List Char) : Nat :=
  ds.foldl (fun n c => 10 * n + (c.toNat - 48)) 0

/-- `10 ^ ex` over the rationals for an integer exponent. -/
def pow10 (ex : Int) : Rat :=
  if 0 ≤ ex then (10 : Rat) ^ ex.toNat else 1 / (10 : Rat) ^ (-ex).toNat

/-- Numeric value `sign * (intpart.fracpart) * 10 ^ ex`. -/
def floatVal (sgn : Int) (ip fp : List Char) (ex : Int) : Rat :=
  (sgn : Rat) * ((digitsVal ip : Rat) + (digitsVal fp : Rat) / (10 : Rat) ^ fp.length)
    * pow10 ex

/-- Python `float(s)`: strip whitespace, then `[sign] digits [. digits]
[e [sign] digits]` with at least one mantissa digit; anything else raises
`ValueError`.  Floating point values are modelled exactly as rationals; the
`inf` / `nan` / underscore literal forms are not modelled (they count as
non-numeric here). -/
def pyfloat (s : String) : Except PyError Rat :=
  let cs := (pystrip s).data
  let (sgn, cs1) := parseSign cs
  let (ip, cs2) := takeDigits cs1
  let (fp, cs3) :=
    match cs2 with
    | '.' :: rest => takeDigits rest
    | _ => ([], cs2)
  if ip.isEmpty ∧ fp.isEmpty then .error (.valueError s)
  else
    match cs3 with
    | [] => .ok (floatVal sgn ip fp 0)
    | c :: rest =>
        if c = 'e' ∨ c = 'E' then
          let (esgn, r1) := parseSign rest
          let (ed, r2) := takeDigits r1
          if ed.isEmpty ∨ ¬ r2.isEmpty then .error (.valueError s)
          else .ok (floatVal sgn ip fp (esgn * (digitsVal ed : Int)))
        else .error (.valueError s)

/-- `load_existing_data`: three reads, each replacing one cache.  Any failure
propagates (a well-formed listing is required; a response of the wrong shape
raises when iterated). -/
def load_existing_data (srv : Server) (st : RunSt) :
    Except PyError Unit × RunSt :=
  match make_request srv st .getQuantityUnits with
  | (.error e, st1) => (.error e, st1)
  | (.ok (.objCreated _), st1) =>
      (.error (.typeError "string indices must be integers"), st1)
  | (.ok (.objList units), st1) =>
      let st1 := { st1 with caches :=
        { st1.caches with units_cache := dictOfObjects units } }
      match make_request srv st1 .getLocations with
      | (.error e, st2) => (.error e, st2)
      | (.ok (.objCreated _), st2) =>
          (.error (.typeError "string indices must be integers"), st2)
      | (.ok (.objList locations), st2) =>
          let st2 := { st2 with caches :=
            { st2.caches with locations_cache := dictOfObjects locations } }
          match make_request srv st2 .getProductGroups with
          | (.error e, st3) => (.error e, st3)
          | (.ok (.objCreated _), st3) =>
              (.error (.typeError "string indices must be integers"), st3)
          | (.ok (.objList groups), st3) =>
              (.ok (),
               { st3 with caches := { st3.caches with
                   product_groups_cache := dictOfObjects groups } })

/-- `create_quantity_unit`: return the cached id when the name is known;
otherwise `POST objects/quantity_units` with the generated description and
the pluralized name (`name + 's' if not name.endswith('s') else name`),
cache and return the created id. -/
def create_quantity_unit (srv : Server) (st : RunSt) (name : String) :
    Except PyError Int × RunSt :=
  match dlookup st.caches.units_cache name with
  | some uid => (.ok uid, st)
  | none =>
      match make_request srv st (.postQuantityUnit name ("Unité " ++ name)
          (if ¬ ends_with_s name then name ++ "s" else name)) with
      | (.error e, st1) => (.error e, st1)
      | (.ok r, st1) =>
          match get_created_object_id r with
          | .error e => (.error e, st1)
          | .ok unit_id =>
              (.ok unit_id,
               { st1 with caches := { st1.caches with
                   units_cache := dinsert st1.caches.units_cache name unit_id } })

/-- `create_location`: as `create_quantity_unit` but for locations. -/
def create_location (srv : Server) (st : RunSt) (name : String) :
    Except PyError Int × RunSt :=
  match dlookup st.caches.locations_cache name with
  | some lid => (.ok lid, st)
  | none =>
      match make_request srv st (.postLocation name ("Emplacement " ++ name)) with
      | (.error e, st1) => (.error e, st1)
      | (.ok r, st1) =>
          match get_created_object_id r with
          | .error e => (.error e, st1)
          | .ok location_id =>
              (.ok location_id,
               { st1 with caches := { st1.caches with
                   locations_cache :=
                     dinsert st1.caches.locations_cache name location_id } })

/-- `create_product_group`: as `create_quantity_unit` but for groups. -/
def create_product_group (srv : Server) (st : RunSt) (name : String) :
    Except PyError Int × RunSt :=
  match dlookup st.caches.product_groups_cache name with
  | some gid => (.ok gid, st)
  | none =>
      match make_request srv st (.postProductGroup name ("Groupe " ++ name)) with
      | (.error e, st1) => (.error e, st1)
      | (.ok r, st1) =>
          match get_created_object_id r with
          | .error e => (.error e, st1)
          | .ok group_id =>
              (.ok group_id,
               { st1 with caches := { st1.caches with
                   product_groups_cache :=
                     dinsert st1.caches.product_groups_cache name group_id } })

/-- `create_product`: one `POST objects/products` with the exact body the
source builds; returns the created id; never touches the caches. -/
def create_product (srv : Server) (st : RunSt) (name : String)
    (unit_id location_id group_id : Int) (min_stock : Rat) :
    Except PyError Int × RunSt :=
  match make_request srv st (.postProduct name ("Produit " ++ name)
      location_id unit_id unit_id min_stock group_id 0) with
  | (.error e, st1) => (.error e, st1)
  | (.ok r, st1) =>
      match get_created_object_id r with
      | .error e => (.error e, st1)
      | .ok product_id => (.ok product_id, st1)

/-- A CSV data row as `csv.DictReader` yields it: column name → raw string. -/
def Row : Type := List (String × String)

/-- Lookup of a column value in a row. -/
def rlookup : List (String × String) → String → Option String
  | [], _ => none
  | (k, v) :: rest, key => if key = k then some v else rlookup rest key

/-- `row[key]` on a CSV row: `KeyError` when the column is absent. -/
def row_get (row : Row) (key : String) : Except PyError String :=
  match rlookup row key with
  | some v => .ok v
  | none => .error (.keyError key)

/-- The `try:` body of the row loop: extract and trim the fields, parse the
amount, resolve/create unit, location and group, then create the product.
The third component tracks the binding of the local variable `name` after the
body ran (assigned as soon as `row['name'].strip()` succeeded, kept from a
previous iteration otherwise) — the `except` handler reads it. -/
def try_row (srv : Server) (st : RunSt) (row : Row) (nameVar : Option String) :
    Except PyError Int × RunSt × Option String :=
  match row_get row "name" with
  | .error e => (.error e, st, nameVar)
  | .ok raw_name =>
      let name := pystrip raw_name
      match row_get row "qu_unit_name" with
      | .error e => (.error e, st, some name)
      | .ok raw_unit =>
          let unit_name := pystrip raw_unit
          match row_get row "qu_amount" with
          | .error e => (.error e, st, some name)
          | .ok raw_amount =>
              match pyfloat raw_amount with
              | .error e => (.error e, st, some name)
              | .ok amount =>
                  match row_get row "location_name" with
                  | .error e => (.error e, st, some name)
                  | .ok raw_location =>
                      let location_name := pystrip raw_location
                      match row_get row "product_group_name" with
                      | .error e => (.error e, st, some name)
                      | .ok raw_group =>
                          let group_name := pystrip raw_group
                          match create_quantity_unit srv st unit_name with
                          | (.error e, st1) => (.error e, st1, some name)
                          | (.ok unit_id, st1) =>
                              match create_location srv st1 location_name with
                              | (.error e, st2) => (.error e, st2, some name)
                              | (.ok location_id, st2) =>
                                  match create_product_group srv st2 group_name with
                                  | (.error e, st3) => (.error e, st3, some name)
                                  | (.ok group_id, st3) =>
                                      match create_product srv st3 name unit_id
                                          location_id group_id amount with
                                      | (.error e, st4) => (.error e, st4, some name)
                                      | (.ok product_id, st4) =>
                                          (.ok product_id, st4, some name)

/-- The `for row in reader` loop.  A failed row is caught at the row boundary:
the handler prints `✗ Erreur ... de {name}: {e}` and continues — unless the
local variable `name` was never assigned, in which case reading it inside the
handler raises `UnboundLocalError`, which nothing catches, aborting the run. -/
def process_rows (srv : Server) (st : RunSt) (nameVar : Option String) :
    List Row → Except PyError Unit × RunSt
  | [] => (.ok (), st)
  | row :: rest =>
      match try_row srv st row nameVar with
      | (.ok product_id, st1, nv) =>
          process_rows srv { st1 with log := st1.log ++ [.rowOk product_id] }
            nv rest
      | (.error e, st1, nv) =>
          match nv with
          | none => (.error (.unboundLocalError "name"), st1)
          | some n =>
              process_rows srv
                { st1 with log := st1.log ++ [.rowFailed n e] } (some n) rest

/-- `import_from_csv` on a freshly initialised importer: load the existing
data (failures propagate before any row is touched), then run the row loop
over the parsed data rows. -/
def import_from_csv (srv : Server) (rows : List Row) :
    Except PyError Unit × RunSt :=
  match load_existing_data srv initial_state with
  | (.error e, st) => (.error e, st)
  | (.ok _, st) => process_rows srv st none rows

/-- Is this request one of the four creation (`POST`) requests? -/
def Request.isPostUnit : Request → Bool
  | .postQuantityUnit _ _ _ => true
  | _ => false

/-- Is this request a location-creation request? -/
def Request.isPostLocation : Request → Bool
  | .postLocation _ _ => true
  | _ => false

/-- Is this request a product-group-creation request? -/
def Request.isPostGroup : Request → Bool
  | .postProductGroup _ _ => true
  | _ => false

/-- Is this request a product-creation request? -/
def Request.isPostProduct : Request → Bool
  | .postProduct _ _ _ _ _ _ _ _ => true
  | _ => false

/-- Is this request any `POST` (creation) request? -/
def Request.isPost (r : Request) : Bool :=
  r.isPostUnit || r.isPostLocation || r.isPostGroup || r.isPostProduct

/-- A benign server: empty listings for the reads, and a successful,
well-formed creation response for every write, with an identifier chosen by
`ids` from the request history. -/
def fresh_server (ids : List Request → Int) : Server := fun tr req =>
  match req with
  | .getQuantityUnits => .ok (.objList [])
  | .getLocations => .ok (.objList [])
  | .getProductGroups => .ok (.objList [])
  | _ => .ok (.objCreated [("created_object_id", ids tr)])

/-- The benign server that numbers created objects by when they were made. -/
def demo_server : Server := fresh_server (fun tr => (tr.length : Int))

/-- A server whose every request fails (e.g. the service is down). -/
def down_server : Server := fun _ _ => .error (.requestError "503 Service Unavailable")

/-- Every entry of `d` survives in `d'` with the same value. -/
def cache_extends (d d' : List (String × Int)) : Prop :=
  ∀ k v, dlookup d k = some v → dlookup d' k = some v

/-- All three caches only ever gain entries: nothing is removed or
overwritten. -/
def caches_extend (c c' : Caches) : Prop :=
  cache_extends c.units_cache c'.units_cache ∧
  cache_extends c.locations_cache c'.locations_cache ∧
  cache_extends c.product_groups_cache c'.product_groups_cache

theorem cache_extends_refl (d : List (String × Int)) : cache_extends d d :=
  fun _ _ h => h

theorem caches_extend_refl (c : Caches) : caches_extend c c :=
  ⟨cache_extends_refl _, cache_extends_refl _, cache_extends_refl _⟩

theorem dlookup_dinsert_self (d : List (String × Int)) (k : String) (v : Int) :
    dlookup (dinsert d k v) k = some v := by
  induction d with
  | nil => simp [dinsert, dlookup]
  | cons p rest ih =>
      obtain ⟨a, b⟩ := p
      by_cases hka : k = a
      · simp [dinsert, dlookup, hka]
      · simp [dinsert, dlookup, hka, ih]

theorem dlookup_dinsert_preserve {d : List (String × Int)} {k : String} {v : Int}
    (hab : dlookup d k = none) {k' : String} {v' : Int}
    (h : dlookup d k' = some v') : dlookup (dinsert d k v) k' = some v' := by
  induction d with
  | nil => simp [dlookup] at h
  | cons p rest ih =>
      obtain ⟨a, b⟩ := p
      rw [dlookup] at hab
      by_cases hka : k = a
      · simp [hka] at hab
      · rw [if_neg hka] at hab
        rw [dlookup] at h
        rw [dinsert, if_neg hka, dlookup]
        by_cases hk'a : k' = a
        · rw [if_pos hk'a] at h ⊢
          exact h
        · rw [if_neg hk'a] at h ⊢
          exact ih hab h

end Grocy

namespace Grocy

/-- C1: a name already present in the corresponding cache makes the
resolve-or-create operation of each entity kind return the cached identifier
with the whole run state untouched — in particular no request is issued and
no cache changes. -/
theorem resolve_cached_no_network (srv : Server) (st : RunSt) (name : String) :
    (∀ uid, dlookup st.caches.units_cache name = some uid →
      create_quantity_unit srv st name = (.ok uid, st)) ∧
    (∀ lid, dlookup st.caches.locations_cache name = some lid →
      create_location srv st name = (.ok lid, st)) ∧
    (∀ gid, dlookup st.caches.product_groups_cache name = some gid →
      create_product_group srv st name = (.ok gid, st)) := by
  refine ⟨?_, ?_, ?_⟩
  · intro uid hu
    rw [create_quantity_unit, hu]
  · intro lid hl
    rw [create_location, hl]
  · intro gid hg
    rw [create_product_group, hg]

/-- C1 witness: each operation, called on a state whose corresponding cache
holds the name, returns the cached identifier with the state unchanged. -/
theorem resolve_cached_no_network_witness :
    create_quantity_unit demo_server ⟨⟨[("kg", 7)], [], []⟩, [], []⟩ "kg" =
      (.ok 7, ⟨⟨[("kg", 7)], [], []⟩, [], []⟩) ∧
    create_location demo_server ⟨⟨[], [("Fridge", 8)], []⟩, [], []⟩ "Fridge" =
      (.ok 8, ⟨⟨[], [("Fridge", 8)], []⟩, [], []⟩) ∧
    create_product_group demo_server ⟨⟨[], [], [("Dairy", 9)]⟩, [], []⟩
      "Dairy" = (.ok 9, ⟨⟨[], [], [("Dairy", 9)]⟩, [], []⟩) :=
  ⟨(resolve_cached_no_network demo_server
      ⟨⟨[("kg", 7)], [], []⟩, [], []⟩ "kg").1 7 rfl,
   (resolve_cached_no_network demo_server
      ⟨⟨[], [("Fridge", 8)], []⟩, [], []⟩ "Fridge").2.1 8 rfl,
   (resolve_cached_no_network demo_server
      ⟨⟨[], [], [("Dairy", 9)]⟩, [], []⟩ "Dairy").2.2 9 rfl⟩

/-- C5: when a unit name is absent from the cache, the creation request that
is issued carries as plural name the name with "s" appended when it does not
already end in "s", and the unchanged name when it does. -/
theorem unit_plural_rule (srv : Server) (st : RunSt) (name : String)
    (h : dlookup st.caches.units_cache name = none) :
    (ends_with_s name = false →
      (create_quantity_unit srv st name).2.trace =
        st.trace ++ [.postQuantityUnit name ("Unité " ++ name) (name ++ "s")]) ∧
    (ends_with_s name = true →
      (create_quantity_unit srv st name).2.trace =
        st.trace ++ [.postQuantityUnit name ("Unité " ++ name) name]) := by
  have hmain : (create_quantity_unit srv st name).2.trace =
      st.trace ++ [.postQuantityUnit name ("Unité " ++ name)
        (if ¬ ends_with_s name then name ++ "s" else name)] := by
    rw [create_quantity_unit, h]
    simp only [make_request]
    split
    next e st1 heq =>
      injection heq with h1 h2
      subst h2
      rfl
    next r st1 heq =>
      injection heq with h1 h2
      subst h2
      split <;> rfl
  constructor
  · intro hf
    rw [hmain, hf]
    simp
  · intro ht
    rw [hmain, ht]
    simp

/-- C5 witness: "kg" is sent with plural "kgs", "boxes" with plural
"boxes". -/
theorem unit_plural_rule_witness :
    ((create_quantity_unit demo_server initial_state "kg").2.trace =
      [] ++ [.postQuantityUnit "kg" ("Unité " ++ "kg") ("kg" ++ "s")]) ∧
    ((create_quantity_unit demo_server initial_state "boxes").2.trace =
      [] ++ [.postQuantityUnit "boxes" ("Unité " ++ "boxes") "boxes"]) :=
  ⟨(unit_plural_rule demo_server initial_state "kg" rfl).1 rfl,
   (unit_plural_rule demo_server initial_state "boxes" rfl).2 rfl⟩

/-- The run state after `create_quantity_unit` created `name` with id `i`:
one unit-creation request issued, the name cached with `i`. -/
def unit_created_state (st : RunSt) (name : String) (i : Int) : RunSt :=
  { caches := { st.caches with
      units_cache := dinsert st.caches.units_cache name i },
    trace := st.trace ++ [.postQuantityUnit name ("Unité " ++ name)
      (if ¬ ends_with_s name then name ++ "s" else name)],
    log := st.log }

/-- The run state after `create_location` created `name` with id `i`. -/
def location_created_state (st : RunSt) (name : String) (i : Int) : RunSt :=
  { caches := { st.caches with
      locations_cache := dinsert st.caches.locations_cache name i },
    trace := st.trace ++ [.postLocation name ("Emplacement " ++ name)],
    log := st.log }

/-- The run state after `create_product_group` created `name` with id `i`. -/
def group_created_state (st : RunSt) (name : String) (i : Int) : RunSt :=
  { caches := { st.caches with
      product_groups_cache := dinsert st.caches.product_groups_cache name i },
    trace := st.trace ++ [.postProductGroup name ("Groupe " ++ name)],
    log := st.log }

/-- C2: a name absent from the corresponding cache makes each
resolve-or-create operation issue exactly one creation request; when the
server answers with a well-formed creation response carrying identifier `i`,
the name is inserted into the cache mapped to `i`, `i` is returned, and a
second call with the same name returns `i` again with the state unchanged
(no further request). -/
theorem resolve_absent_creates (srv : Server) (st : RunSt) (name : String) :
    (∀ fU iU, dlookup st.caches.units_cache name = none →
      srv st.trace (.postQuantityUnit name ("Unité " ++ name)
        (if ¬ ends_with_s name then name ++ "s" else name)) =
        .ok (.objCreated fU) →
      dlookup fU "created_object_id" = some iU →
      create_quantity_unit srv st name =
        (.ok iU, unit_created_state st name iU) ∧
      create_quantity_unit srv (unit_created_state st name iU) name =
        (.ok iU, unit_created_state st name iU)) ∧
    (∀ fL iL, dlookup st.caches.locations_cache name = none →
      srv st.trace (.postLocation name ("Emplacement " ++ name)) =
        .ok (.objCreated fL) →
      dlookup fL "created_object_id" = some iL →
      create_location srv st name =
        (.ok iL, location_created_state st name iL) ∧
      create_location srv (location_created_state st name iL) name =
        (.ok iL, location_created_state st name iL)) ∧
    (∀ fG iG, dlookup st.caches.product_groups_cache name = none →
      srv st.trace (.postProductGroup name ("Groupe " ++ name)) =
        .ok (.objCreated fG) →
      dlookup fG "created_object_id" = some iG →
      create_product_group srv st name =
        (.ok iG, group_created_state st name iG) ∧
      create_product_group srv (group_created_state st name iG) name =
        (.ok iG, group_created_state st name iG)) := by
  refine ⟨?_, ?_, ?_⟩
  · intro fU iU hu hsU hfU
    constructor
    · rw [create_quantity_unit, hu]
      simp only [make_request, hsU, get_created_object_id, hfU]
      rfl
    · have h2 : dlookup (unit_created_state st name iU).caches.units_cache
          name = some iU := dlookup_dinsert_self _ _ _
      rw [create_quantity_unit, h2]
  · intro fL iL hl hsL hfL
    constructor
    · rw [create_location, hl]
      simp only [make_request, hsL, get_created_object_id, hfL]
      rfl
    · have h2 : dlookup
          (location_created_state st name iL).caches.locations_cache name =
          some iL := dlookup_dinsert_self _ _ _
      rw [create_location, h2]
  · intro fG iG hg hsG hfG
    constructor
    · rw [create_product_group, hg]
      simp only [make_request, hsG, get_created_object_id, hfG]
      rfl
    · have h2 : dlookup
          (group_created_state st name iG).caches.product_groups_cache name =
          some iG := dlookup_dinsert_self _ _ _
      rw [create_product_group, h2]

/-- C2 witness: resolving the absent name "kg" against the benign server from
a fresh state creates it once and the repeat call is served from the cache. -/
theorem resolve_absent_creates_witness :
    (create_quantity_unit demo_server initial_state "kg" =
       (.ok 0, unit_created_state initial_state "kg" 0) ∧
     create_quantity_unit demo_server (unit_created_state initial_state "kg" 0)
       "kg" = (.ok 0, unit_created_state initial_state "kg" 0)) ∧
    (create_location demo_server initial_state "kg" =
       (.ok 0, location_created_state initial_state "kg" 0) ∧
     create_location demo_server (location_created_state initial_state "kg" 0)
       "kg" = (.ok 0, location_created_state initial_state "kg" 0)) ∧
    (create_product_group demo_server initial_state "kg" =
       (.ok 0, group_created_state initial_state "kg" 0) ∧
     create_product_group demo_server (group_created_state initial_state "kg" 0)
       "kg" = (.ok 0, group_created_state initial_state "kg" 0)) :=
  ⟨(resolve_absent_creates demo_server initial_state "kg").1
      [("created_object_id", 0)] 0 rfl rfl rfl,
   (resolve_absent_creates demo_server initial_state "kg").2.1
      [("created_object_id", 0)] 0 rfl rfl rfl,
   (resolve_absent_creates demo_server initial_state "kg").2.2
      [("created_object_id", 0)] 0 rfl rfl rfl⟩

/-- C9: each resolve-or-create operation and the product creation never
remove or overwrite an existing cache entry, in any of the three caches:
whatever the server answers, every entry present before the call is still
present with the same identifier after it. -/
theorem caches_append_only (srv : Server) (st : RunSt) (name pname : String)
    (unit_id location_id group_id : Int) (min_stock : Rat) :
    caches_extend st.caches (create_quantity_unit srv st name).2.caches ∧
    caches_extend st.caches (create_location srv st name).2.caches ∧
    caches_extend st.caches (create_product_group srv st name).2.caches ∧
    caches_extend st.caches
      (create_product srv st pname unit_id location_id group_id
        min_stock).2.caches := by
  refine ⟨?_, ?_, ?_, ?_⟩
  · cases hd : dlookup st.caches.units_cache name with
    | some uid =>
        rw [create_quantity_unit, hd]
        exact caches_extend_refl _
    | none =>
        rw [create_quantity_unit, hd]
        simp only [make_request]
        split
        next e st1 heq =>
          injection heq with h1 h2
          subst h2
          exact caches_extend_refl _
        next r st1 heq =>
          injection heq with h1 h2
          subst h2
          split
          next e heq2 => exact caches_extend_refl _
          next uid heq2 =>
            exact ⟨fun k v h => dlookup_dinsert_preserve hd h,
                   fun _ _ h => h, fun _ _ h => h⟩
  · cases hd : dlookup st.caches.locations_cache name with
    | some lid =>
        rw [create_location, hd]
        exact caches_extend_refl _
    | none =>
        rw [create_location, hd]
        simp only [make_request]
        split
        next e st1 heq =>
          injection heq with h1 h2
          subst h2
          exact caches_extend_refl _
        next r st1 heq =>
          injection heq with h1 h2
          subst h2
          split
          next e heq2 => exact caches_extend_refl _
          next lid heq2 =>
            exact ⟨fun _ _ h => h,
                   fun k v h => dlookup_dinsert_preserve hd h, fun _ _ h => h⟩
  · cases hd : dlookup st.caches.product_groups_cache name with
    | some gid =>
        rw [create_product_group, hd]
        exact caches_extend_refl _
    | none =>
        rw [create_product_group, hd]
        simp only [make_request]
        split
        next e st1 heq =>
          injection heq with h1 h2
          subst h2
          exact caches_extend_refl _
        next r st1 heq =>
          injection heq with h1 h2
          subst h2
          split
          next e heq2 => exact caches_extend_refl _
          next gid heq2 =>
            exact ⟨fun _ _ h => h, fun _ _ h => h,
                   fun k v h => dlookup_dinsert_preserve hd h⟩
  · rw [create_product]
    simp only [make_request]
    split
    next e st1 heq =>
      injection heq with h1 h2
      subst h2
      exact caches_extend_refl _
    next r st1 heq =>
      injection heq with h1 h2
      subst h2
      split
      next e heq2 => exact caches_extend_refl _
      next pid heq2 => exact caches_extend_refl _

/-- C9 witness: an existing entry ("ex" ↦ 5) survives a unit creation that
adds "kg" to the cache. -/
theorem caches_append_only_witness :
    dlookup ((create_quantity_unit demo_server
      ⟨⟨[("ex", 5)], [], []⟩, [], []⟩ "kg").2.caches.units_cache) "ex" =
      some 5 :=
  (caches_append_only demo_server ⟨⟨[("ex", 5)], [], []⟩, [], []⟩ "kg" "Milk"
    1 2 3 2).1.1 "ex" 5 rfl

/-- C7: creating a product issues exactly one request whose body uses the
given location identifier, the given unit identifier as both stock and
purchase unit, the given group identifier and minimum stock amount, and tare
weight handling disabled (0); when the server answers with a well-formed
creation response, the operation returns the created-object identifier. -/
theorem create_product_contract (srv : Server) (st : RunSt) (name : String)
    (unit_id location_id group_id : Int) (min_stock : Rat)
    (fields : List (String × Int)) (i : Int)
    (hs : srv st.trace (.postProduct name ("Produit " ++ name) location_id
        unit_id unit_id min_stock group_id 0) = .ok (.objCreated fields))
    (hf : dlookup fields "created_object_id" = some i) :
    create_product srv st name unit_id location_id group_id min_stock =
      (.ok i, { st with trace := st.trace ++ [.postProduct name
        ("Produit " ++ name) location_id unit_id unit_id min_stock group_id 0] }) := by
  rw [create_product]
  simp only [make_request, hs]
  rw [get_created_object_id, hf]

/-- C7 witness: a concrete product creation against the benign server. -/
theorem create_product_contract_witness :
    create_product demo_server initial_state "Milk" 3 4 5 2 =
      (.ok 0, { initial_state with trace := initial_state.trace ++
        [.postProduct "Milk" ("Produit " ++ "Milk") 4 3 3 2 5 0] }) :=
  create_product_contract demo_server initial_state "Milk" 3 4 5 2
    [("created_object_id", 0)] 0 rfl rfl

/-- C3 counterexample: when the very first data row lacks the `name` column,
the row handler itself raises (`UnboundLocalError` on reading `name` for the
failure message), the error escapes, and the following valid row is never
processed — one bad row does abort the run. -/
theorem missing_name_first_row_aborts :
    import_from_csv demo_server
      [[("qu_unit_name", "kg"), ("qu_amount", "2"),
        ("location_name", "Fridge"), ("product_group_name", "Dairy")],
       [("name", "Milk"), ("qu_unit_name", "kg"), ("qu_amount", "2"),
        ("location_name", "Fridge"), ("product_group_name", "Dairy")]] =
      (.error (.unboundLocalError "name"),
       ⟨⟨[], [], []⟩, [.getQuantityUnits, .getLocations, .getProductGroups],
        []⟩) := by
  rfl

/-- C3 amended: a row error is caught at the row boundary, logged with the
failing name and the error detail, and processing proceeds to the next row —
provided the local variable `name` is bound when the handler runs (the row's
name field was extracted, or a previous row bound it).  A failure to extract
the name field before any row has bound it aborts the run instead (see the
counterexample). -/
theorem row_error_with_bound_name_continues (srv : Server) (st : RunSt)
    (nv : Option String) (row : Row) (rest : List Row) (e : PyError)
    (st1 : RunSt) (n : String)
    (h : try_row srv st row nv = (.error e, st1, some n)) :
    process_rows srv st nv (row :: rest) =
      process_rows srv { st1 with log := st1.log ++ [.rowFailed n e] }
        (some n) rest := by
  simp only [process_rows, h]

/-- C3 witness: a row with a non-numeric amount (its name already extracted)
is logged and the loop moves on. -/
theorem row_error_with_bound_name_continues_witness :
    process_rows demo_server initial_state none
      [[("name", "Milk"), ("qu_unit_name", "kg"), ("qu_amount", "abc"),
        ("location_name", "Fridge"), ("product_group_name", "Dairy")]] =
      process_rows demo_server
        { initial_state with log := initial_state.log ++
            [.rowFailed "Milk" (.valueError "abc")] } (some "Milk") [] :=
  row_error_with_bound_name_continues demo_server initial_state none
    [("name", "Milk"), ("qu_unit_name", "kg"), ("qu_amount", "abc"),
     ("location_name", "Fridge"), ("product_group_name", "Dairy")] []
    (.valueError "abc") initial_state "Milk" rfl

/-- C8: a row whose amount field does not parse as a number fails before any
request is issued for it (its product is not created and the state is
untouched), the failure is logged with the stripped name and the error, and
the loop continues with the remaining rows. -/
theorem bad_amount_row_skipped (srv : Server) (st : RunSt) (nv : Option String)
    (row : Row) (rest : List Row) (raw_name raw_unit raw_amount : String)
    (e : PyError)
    (hn : row_get row "name" = .ok raw_name)
    (hu : row_get row "qu_unit_name" = .ok raw_unit)
    (ha : row_get row "qu_amount" = .ok raw_amount)
    (hbad : pyfloat raw_amount = .error e) :
    try_row srv st row nv = (.error e, st, some (pystrip raw_name)) ∧
    process_rows srv st nv (row :: rest) =
      process_rows srv
        { st with log := st.log ++ [.rowFailed (pystrip raw_name) e] }
        (some (pystrip raw_name)) rest := by
  have htr : try_row srv st row nv = (.error e, st, some (pystrip raw_name)) := by
    simp only [try_row, hn, hu, ha, hbad]
  exact ⟨htr, by simp only [process_rows, htr]⟩

/-- C8 witness: the non-numeric amount "abc" fails the row, logs it, and the
loop goes on to the rest of the file. -/
theorem bad_amount_row_skipped_witness :
    (try_row demo_server initial_state
      [("name", "Milk"), ("qu_unit_name", "kg"), ("qu_amount", "abc"),
       ("location_name", "Fridge"), ("product_group_name", "Dairy")] none =
      (.error (.valueError "abc"), initial_state, some (pystrip "Milk"))) ∧
    (process_rows demo_server initial_state none
      ([("name", "Milk"), ("qu_unit_name", "kg"), ("qu_amount", "abc"),
        ("location_name", "Fridge"), ("product_group_name", "Dairy")] ::
       [[("name", "Butter"), ("qu_unit_name", "kg"), ("qu_amount", "3"),
         ("location_name", "Fridge"), ("product_group_name", "Dairy")]]) =
      process_rows demo_server
        { initial_state with log := initial_state.log ++
            [.rowFailed (pystrip "Milk") (.valueError "abc")] }
        (some (pystrip "Milk"))
        [[("name", "Butter"), ("qu_unit_name", "kg"), ("qu_amount", "3"),
          ("location_name", "Fridge"), ("product_group_name", "Dairy")]]) :=
  bad_amount_row_skipped demo_server initial_state none
    [("name", "Milk"), ("qu_unit_name", "kg"), ("qu_amount", "abc"),
     ("location_name", "Fridge"), ("product_group_name", "Dairy")]
    [[("name", "Butter"), ("qu_unit_name", "kg"), ("qu_amount", "3"),
      ("location_name", "Fridge"), ("product_group_name", "Dairy")]]
    "Milk" "kg" "abc" (.valueError "abc") rfl rfl rfl rfl

/-- C4: a run over two rows sharing the unit, location and group names,
against initially empty remote data (so empty caches after the load) and a
server that answers every creation, issues exactly one unit-creation, one
location-creation and one group-creation request, and two product-creation
requests. -/
theorem two_rows_shared_refs_counts (ids : List Request → Int)
    (n1 n2 u l g a1 a2 : String) (x1 x2 : Rat)
    (h1 : pyfloat a1 = .ok x1) (h2 : pyfloat a2 = .ok x2) :
    ((import_from_csv (fresh_server ids)
        [[("name", n1), ("qu_unit_name", u), ("qu_amount", a1),
          ("location_name", l), ("product_group_name", g)],
         [("name", n2), ("qu_unit_name", u), ("qu_amount", a2),
          ("location_name", l), ("product_group_name", g)]]).2.trace.countP
      Request.isPostUnit = 1) ∧
    ((import_from_csv (fresh_server ids)
        [[("name", n1), ("qu_unit_name", u), ("qu_amount", a1),
          ("location_name", l), ("product_group_name", g)],
         [("name", n2), ("qu_unit_name", u), ("qu_amount", a2),
          ("location_name", l), ("product_group_name", g)]]).2.trace.countP
      Request.isPostLocation = 1) ∧
    ((import_from_csv (fresh_server ids)
        [[("name", n1), ("qu_unit_name", u), ("qu_amount", a1),
          ("location_name", l), ("product_group_name", g)],
         [("name", n2), ("qu_unit_name", u), ("qu_amount", a2),
          ("location_name", l), ("product_group_name", g)]]).2.trace.countP
      Request.isPostGroup = 1) ∧
    ((import_from_csv (fresh_server ids)
        [[("name", n1), ("qu_unit_name", u), ("qu_amount", a1),
          ("location_name", l), ("product_group_name", g)],
         [("name", n2), ("qu_unit_name", u), ("qu_amount", a2),
          ("location_name", l), ("product_group_name", g)]]).2.trace.countP
      Request.isPostProduct = 2) := by
  refine ⟨?_, ?_, ?_, ?_⟩ <;>
    simp [import_from_csv, load_existing_data, make_request, fresh_server,
      initial_state, process_rows, try_row, row_get, rlookup,
      create_quantity_unit, create_location, create_product_group,
      create_product, get_created_object_id, dlookup, dinsert, dictOfObjects,
      h1, h2, Request.isPostUnit, Request.isPostLocation, Request.isPostGroup,
      Request.isPostProduct, List.countP_cons, List.countP_nil]

/-- C4 witness: two concrete rows sharing "kg" / "Fridge" / "Dairy" give one
creation request per reference entity and two product-creation requests. -/
theorem two_rows_shared_refs_counts_witness :
    ((import_from_csv (fresh_server (fun tr => (tr.length : Int)))
        [[("name", "Milk"), ("qu_unit_name", "kg"), ("qu_amount", "2"),
          ("location_name", "Fridge"), ("product_group_name", "Dairy")],
         [("name", "Cream"), ("qu_unit_name", "kg"), ("qu_amount", "3"),
          ("location_name", "Fridge"),
          ("product_group_name", "Dairy")]]).2.trace.countP
      Request.isPostUnit = 1) ∧
    ((import_from_csv (fresh_server (fun tr => (tr.length : Int)))
        [[("name", "Milk"), ("qu_unit_name", "kg"), ("qu_amount", "2"),
          ("location_name", "Fridge"), ("product_group_name", "Dairy")],
         [("name", "Cream"), ("qu_unit_name", "kg"), ("qu_amount", "3"),
          ("location_name", "Fridge"),
          ("product_group_name", "Dairy")]]).2.trace.countP
      Request.isPostLocation = 1) ∧
    ((import_from_csv (fresh_server (fun tr => (tr.length : Int)))
        [[("name", "Milk"), ("qu_unit_name", "kg"), ("qu_amount", "2"),
          ("location_name", "Fridge"), ("product_group_name", "Dairy")],
         [("name", "Cream"), ("qu_unit_name", "kg"), ("qu_amount", "3"),
          ("location_name", "Fridge"),
          ("product_group_name", "Dairy")]]).2.trace.countP
      Request.isPostGroup = 1) ∧
    ((import_from_csv (fresh_server (fun tr => (tr.length : Int)))
        [[("name", "Milk"), ("qu_unit_name", "kg"), ("qu_amount", "2"),
          ("location_name", "Fridge"), ("product_group_name", "Dairy")],
         [("name", "Cream"), ("qu_unit_name", "kg"), ("qu_amount", "3"),
          ("location_name", "Fridge"),
          ("product_group_name", "Dairy")]]).2.trace.countP
      Request.isPostProduct = 2) :=
  two_rows_shared_refs_counts (fun tr => (tr.length : Int))
    "Milk" "Cream" "kg" "Fridge" "Dairy" "2" "3"
    (floatVal 1 ['2'] [] 0) (floatVal 1 ['3'] [] 0) rfl rfl

/-- C6: if any of the three initial reads fails, the import run stops with
that error before any row is processed: the log is empty and the only
requests issued are the reads themselves — no creation request is made. -/
theorem load_failure_aborts (srv : Server) (rows : List Row) (e : PyError) :
    (srv [] .getQuantityUnits = .error e →
      import_from_csv srv rows =
        (.error e, ⟨⟨[], [], []⟩, [.getQuantityUnits], []⟩)) ∧
    (∀ us, srv [] .getQuantityUnits = .ok (.objList us) →
      srv [.getQuantityUnits] .getLocations = .error e →
      import_from_csv srv rows =
        (.error e, ⟨⟨dictOfObjects us, [], []⟩,
          [.getQuantityUnits, .getLocations], []⟩)) ∧
    (∀ us ls, srv [] .getQuantityUnits = .ok (.objList us) →
      srv [.getQuantityUnits] .getLocations = .ok (.objList ls) →
      srv [.getQuantityUnits, .getLocations] .getProductGroups = .error e →
      import_from_csv srv rows =
        (.error e, ⟨⟨dictOfObjects us, dictOfObjects ls, []⟩,
          [.getQuantityUnits, .getLocations, .getProductGroups], []⟩)) := by
  refine ⟨?_, ?_, ?_⟩
  · intro h1
    have hload : load_existing_data srv initial_state =
        (.error e, ⟨⟨[], [], []⟩, [.getQuantityUnits], []⟩) := by
      simp only [load_existing_data, make_request, initial_state,
        List.nil_append, h1]
    simp only [import_from_csv, hload]
  · intro us h1 h2
    have hload : load_existing_data srv initial_state =
        (.error e, ⟨⟨dictOfObjects us, [], []⟩,
          [.getQuantityUnits, .getLocations], []⟩) := by
      simp only [load_existing_data, make_request, initial_state,
        List.nil_append, List.cons_append, h1, h2]
    simp only [import_from_csv, hload]
  · intro us ls h1 h2 h3
    have hload : load_existing_data srv initial_state =
        (.error e, ⟨⟨dictOfObjects us, dictOfObjects ls, []⟩,
          [.getQuantityUnits, .getLocations, .getProductGroups], []⟩) := by
      simp only [load_existing_data, make_request, initial_state,
        List.nil_append, List.cons_append, h1, h2, h3]
    simp only [import_from_csv, hload]

/-- C6 witness: against a server that is down, the run fails at the first
read with nothing processed and nothing created. -/
theorem load_failure_aborts_witness :
    import_from_csv down_server
      [[("name", "Milk"), ("qu_unit_name", "kg"), ("qu_amount", "2"),
        ("location_name", "Fridge"), ("product_group_name", "Dairy")]] =
      (.error (.requestError "503 Service Unavailable"),
       ⟨⟨[], [], []⟩, [.getQuantityUnits], []⟩) :=
  (load_failure_aborts down_server
    [[("name", "Milk"), ("qu_unit_name", "kg"), ("qu_amount", "2"),
      ("location_name", "Fridge"), ("product_group_name", "Dairy")]]
    (.requestError "503 Service Unavailable")).1 rfl

/-- C10: creating a product never touches any of the three caches (the
returned product identifier is not cached), and each call issues exactly one
product-creation request — so a second call with the same name issues a
second request. -/
theorem create_product_frame (srv : Server) (st : RunSt) (name : String)
    (unit_id location_id group_id : Int) (min_stock : Rat) :
    (create_product srv st name unit_id location_id group_id min_stock).2.caches =
      st.caches ∧
    (create_product srv st name unit_id location_id group_id min_stock).2.trace =
      st.trace ++ [.postProduct name ("Produit " ++ name) location_id unit_id
        unit_id min_stock group_id 0] := by
  rw [create_product]
  simp only [make_request]
  constructor
  · split
    next e st1 heq =>
      injection heq with h1 h2
      subst h2
      rfl
    next r st1 heq =>
      injection heq with h1 h2
      subst h2
      split <;> rfl
  · split
    next e st1 heq =>
      injection heq with h1 h2
      subst h2
      rfl
    next r st1 heq =>
      injection heq with h1 h2
      subst h2
      split <;> rfl

end Grocy
